import Mathlib

-- Shallow embedding of the PartSelect chat assistant core:
-- the simulated backend classifier/composer `processQuery`, the line-oriented
-- markup renderer `renderMessage`, and the two conversation controllers
-- (`handleSendAgent` from the prototype component, `handleSendHome` from the
-- variant that dispatches to the external answer service).  JavaScript string
-- primitives (`includes`, `toLowerCase`, `trim`, `split`, `startsWith`,
-- `endsWith`) are modelled on `List Char` so that every definition is
-- executable by the kernel.

/-- `isPrefixOfL pat cs` is true when `pat` is a prefix of `cs`. -/
def isPrefixOfL : List Char → List Char → Bool
  | [], _ => true
  | _ :: _, [] => false
  | a :: as, b :: bs => a = b && isPrefixOfL as bs

/-- `infixOfL pat cs` is true when `pat` occurs contiguously inside `cs`;
this models JavaScript `String.prototype.includes`. -/
def infixOfL (pat : List Char) : List Char → Bool
  | [] => pat.isEmpty
  | c :: cs => isPrefixOfL pat (c :: cs) || infixOfL pat cs

/-- JavaScript `s.includes(pat)`. -/
def jsIncludes (s pat : String) : Bool :=
  infixOfL pat.data s.data

/-- JavaScript `s.toLowerCase()` (ASCII case mapping, which is all the
source's keywords need). -/
def jsToLower (s : String) : String :=
  ⟨s.data.map Char.toLower⟩

/-- The whitespace characters relevant to `trim` in the source's inputs. -/
def jsWhitespace (c : Char) : Bool :=
  c = ' ' || c = '\t' || c = '\n' || c = '\r'

/-- JavaScript `s.trim()`. -/
def jsTrim (s : String) : String :=
  ⟨((s.data.dropWhile jsWhitespace).reverse.dropWhile jsWhitespace).reverse⟩

/-- JavaScript `s.startsWith(pat)`. -/
def jsStartsWith (s pat : String) : Bool :=
  isPrefixOfL pat.data s.data

/-- JavaScript `s.endsWith(pat)`. -/
def jsEndsWith (s pat : String) : Bool :=
  isPrefixOfL pat.data.reverse s.data.reverse

/-- JavaScript `s.split(sep)` for a one-character separator. -/
def splitOnCharL (sep : Char) : List Char → List (List Char)
  | [] => [[]]
  | c :: cs =>
    if c = sep then [] :: splitOnCharL sep cs
    else
      match splitOnCharL sep cs with
      | l :: ls => (c :: l) :: ls
      | [] => [[c]]

/-- The intent tag carried in the `type` field of a simulated backend
response (`'installation' | 'compatibility' | 'troubleshooting' | 'general'`). -/
inductive QueryType where
  | installation
  | compatibility
  | troubleshooting
  | general
deriving DecidableEq

/-- The `partInfo` object of the installation response in `processQuery`. -/
structure PartInfo where
  partNumber : String
  name : String
  price : String
  inStock : Bool
deriving DecidableEq

/-- One element of the `products` array of the compatibility response. -/
structure Product where
  partNumber : String
  name : String
  price : String
  compatibility : String
  fixPercentage : Nat
deriving DecidableEq

/-- One element of the `troubleshooting` array of the troubleshooting
response. -/
structure TroubleshootingCause where
  issue : String
  solution : String
  likelihood : String
deriving DecidableEq

/-- One element of the `recommendedParts` array of the troubleshooting
response. -/
structure RecommendedPart where
  partNumber : String
  name : String
  price : String
  fixPercentage : Nat
  reviews : ℚ
deriving DecidableEq

/-- A response object returned by `processQuery`.  JavaScript object fields
that a given branch does not set are modelled as `none`. -/
structure Response where
  type : QueryType
  content : String
  partInfo : Option PartInfo
  products : Option (List Product)
  troubleshooting : Option (List TroubleshootingCause)
  recommendedParts : Option (List RecommendedPart)
deriving DecidableEq

/-- Narrative text of the installation response in `processQuery`. -/
def installationContent : String :=
  "**Installation Guide for Part PS11752778 - Dishwasher Upper Rack Adjuster**\n\n**Tools Needed:**\n• Phillips screwdriver\n• Needle-nose pliers (optional)\n\n**Step-by-Step Instructions:**\n\n1. **Safety First**: Disconnect power to the dishwasher\n2. **Remove Upper Rack**: Pull the rack completely out of the dishwasher\n3. **Locate Adjuster**: Find the worn adjuster on the side of the rack\n4. **Remove Old Part**: Press the release tab and slide out the old adjuster\n5. **Install New Adjuster**: Align the new PS11752778 adjuster and snap it into place\n6. **Test Movement**: Ensure the adjuster moves smoothly up and down\n7. **Reinstall Rack**: Slide the rack back into the dishwasher\n8. **Test**: Run a test cycle to verify proper operation\n\n**Estimated Time:** 15-20 minutes\n**Difficulty:** Easy\n\n[View Video Tutorial](https://www.partselect.com/PS11752778)"

/-- Narrative text of the compatibility response in `processQuery`. -/
def compatibilityContent : String :=
  "**Compatibility Check for Model WDT780SAEM1**\n\nGreat news! I found several compatible parts for your Whirlpool dishwasher model **WDT780SAEM1**.\n\n**Based on your question, here are the most relevant parts:**"

/-- Narrative text of the troubleshooting response in `processQuery`. -/
def troubleshootingContent : String :=
  "**Troubleshooting: Ice Maker Not Working - Whirlpool Refrigerator**\n\n**Common Causes & Solutions:**"

/-- Narrative text of the default general response in `processQuery`. -/
def generalContent : String :=
  "I can help you with that! To provide the most accurate information, please specify:\n\n• Part number (e.g., PS11752778)\n• Model number (e.g., WDT780SAEM1)\n• Specific issue or question\n\nOr try asking:\n• \"How do I install part PS11752778?\"\n• \"Is part X compatible with model Y?\"\n• \"My ice maker isn\x27t working\""

/-- The simulated backend of the prototype component: classifies the query by
literal substring checks over the lowercased text and composes the response
payload for the winning branch, falling through to the general payload. -/
def processQuery (query : String) : Response :=
  let lowerQuery := jsToLower query
  if jsIncludes lowerQuery "install" && jsIncludes lowerQuery "ps11752778" then
    ⟨QueryType.installation, installationContent,
      some ⟨"PS11752778", "Upper Rack Adjuster", "$12.99", true⟩,
      none, none, none⟩
  else if jsIncludes lowerQuery "compatible" && jsIncludes lowerQuery "wdt780saem1" then
    ⟨QueryType.compatibility, compatibilityContent, none,
      some [⟨"W10350375", "Dishwasher Upper Rack Assembly", "$89.95", "Direct Fit", 95⟩,
            ⟨"W10195416", "Dishwasher Spray Arm", "$32.50", "Direct Fit", 88⟩,
            ⟨"W10712395", "Door Latch Assembly", "$67.80", "Direct Fit", 92⟩],
      none, none⟩
  else if jsIncludes lowerQuery "ice maker" && jsIncludes lowerQuery "not working" then
    ⟨QueryType.troubleshooting, troubleshootingContent, none, none,
      some [⟨"Water Supply Issue",
             "Check if water supply valve is fully open. Inspect water line for kinks or freezing.",
             "High - 35%"⟩,
            ⟨"Faulty Ice Maker Assembly",
             "Test the ice maker module. If it doesn\x27t cycle, replacement may be needed.",
             "High - 30%"⟩,
            ⟨"Water Inlet Valve Problem",
             "Check for proper water pressure (20-120 PSI). Test valve with multimeter.",
             "Medium - 20%"⟩],
      some [⟨"W10190965", "Ice Maker Assembly", "$124.99", 87, 4.5⟩,
            ⟨"W10408179", "Water Inlet Valve", "$45.50", 78, 4.3⟩]⟩
  else
    ⟨QueryType.general, generalContent, none, none, none, none⟩

/-- The `type` field of a transcript message (`'user' | 'bot'`). -/
inductive Role where
  | user
  | bot
deriving DecidableEq

/-- A transcript message of the prototype component; the `timestamp` field is
not modelled (no claim mentions it). -/
structure ChatMessage where
  type : Role
  content : String
  data : Option Response
deriving DecidableEq

/-- The component state the prototype's `handleSend` reads and writes:
the `messages` list, the `input` box, and the `isLoading` flag. -/
structure AgentState where
  messages : List ChatMessage
  input : String
  isLoading : Bool
deriving DecidableEq

/-- `handleSend` of the prototype component, as the settled state after the
delayed `processQuery` completion: the guard rejects blank input or a pending
request unchanged; otherwise the user message and the bot message carrying
the `processQuery` payload are appended, the input is cleared and the loading
flag ends false. -/
def handleSendAgent (s : AgentState) : AgentState :=
  if (jsTrim s.input == "") || s.isLoading then s
  else
    let response := processQuery s.input
    ⟨s.messages ++
       [⟨Role.user, s.input, none⟩, ⟨Role.bot, response.content, some response⟩],
     "", false⟩

/-- The parsed JSON body of an answer-service reply, modelled by the only
field the controller reads: `response` (absent models a missing field). -/
structure ChatData where
  response : Option String
deriving DecidableEq

/-- The possible completions of the `fetch` + `response.json()` dispatch in
the real-system controller: a network-level rejection, a body that fails JSON
parsing (with the transport `ok` flag of the reply), or a parsed body (again
with the `ok` flag, which the controller never consults). -/
inductive DispatchOutcome where
  | netError
  | parseError (ok : Bool)
  | success (ok : Bool) (body : ChatData)
deriving DecidableEq

/-- A transcript message of the real-system controller variant. -/
structure HomeMessage where
  type : Role
  content : String
  data : Option ChatData
deriving DecidableEq

/-- The state of the real-system controller variant. -/
structure HomeState where
  messages : List HomeMessage
  input : String
  isLoading : Bool
deriving DecidableEq

/-- The fixed error text appended by the `catch` branch of the real-system
`handleSend`. -/
def homeErrorText : String :=
  "Sorry, I encountered an error. Please make sure the backend server is running on port 5001."

/-- The fixed fallback text used when `data.response` is falsy. -/
def homeFallbackText : String :=
  "Sorry, I couldn\x27t process that request."

/-- JavaScript `o || dflt` for a possibly-absent string `o`: the default is
taken when the field is missing or the empty string. -/
def jsOrDefault (o : Option String) (dflt : String) : String :=
  match o with
  | some s => if s == "" then dflt else s
  | none => dflt

/-- `handleSend` of the real-system controller (`Home`), as the settled state
after the dispatch completes with the given outcome: blank input or a pending
request is rejected unchanged; a network or JSON-parse failure lands in the
`catch` branch, appending the fixed error message; a parsed body is handled
on the success path regardless of the transport `ok` flag, appending
`data.response` (or the fallback text when that field is falsy) with the body
attached; the `finally` branch clears the loading flag in every path. -/
def handleSendHome (s : HomeState) (outcome : DispatchOutcome) : HomeState :=
  if (jsTrim s.input == "") || s.isLoading then s
  else
    let userMessage : HomeMessage := ⟨Role.user, s.input, none⟩
    match outcome with
    | DispatchOutcome.netError =>
      ⟨s.messages ++ [userMessage, ⟨Role.bot, homeErrorText, none⟩], "", false⟩
    | DispatchOutcome.parseError _ =>
      ⟨s.messages ++ [userMessage, ⟨Role.bot, homeErrorText, none⟩], "", false⟩
    | DispatchOutcome.success _ body =>
      ⟨s.messages ++
         [userMessage,
          ⟨Role.bot, jsOrDefault body.response homeFallbackText, some body⟩],
       "", false⟩

/-- One display block produced by the renderer for one source line. -/
inductive DisplayBlock where
  | heading (text : String)
  | bullet (text : String)
  | numbered (text : String)
  | link (label : String)
  | paragraph (text : String)
  | blank
deriving DecidableEq

/-- Global replacement of the two-character marker `**` by nothing,
modelling `line.replace(/\*\*/g, '')`. -/
def replaceStarsL : List Char → List Char
  | '*' :: '*' :: cs => replaceStarsL cs
  | c :: cs => c :: replaceStarsL cs
  | [] => []

/-- After the leading digit, the regex `^\d+\.` consumes further digits and
then requires a period. -/
def numberedTail : List Char → Bool
  | [] => false
  | c :: cs => if c = '.' then true else if c.isDigit then numberedTail cs else false

/-- `line.trim().match(/^\d+\./)` is non-null: the trimmed line starts with
one or more digits followed by a period. -/
def startsNumbered : List Char → Bool
  | [] => false
  | c :: cs => c.isDigit && numberedTail cs

/-- The capture of `/\[(.*?)\]/` once the opening bracket has been consumed:
the characters up to the first closing bracket, or no match if none occurs. -/
def bracketTail : List Char → Option (List Char)
  | [] => none
  | c :: cs => if c = ']' then some [] else (bracketTail cs).map (fun l => c :: l)

/-- The match of `/\[(.*?)\]/`: scan to the first opening bracket, then
capture up to the first closing bracket after it. -/
def firstBracketLabelL : List Char → Option (List Char)
  | [] => none
  | c :: cs => if c = '[' then bracketTail cs else firstBracketLabelL cs

/-- `line.match(/\[(.*?)\]/)` restricted to its first capture group; `none`
models a null match result. -/
def firstBracketLabel (s : String) : Option String :=
  (firstBracketLabelL s.data).map (fun l => ⟨l⟩)

/-- Classification of one line by `renderMessage`, in source order: heading,
bullet, numbered, link, then paragraph or blank by line truthiness.  The link
branch reads capture group 1 of the bracket match; `none` models the
JavaScript error that dereferencing a null match would raise. -/
def renderLine (line : String) : Option DisplayBlock :=
  if jsStartsWith line "**" && jsEndsWith line "**" then
    some (DisplayBlock.heading ⟨replaceStarsL line.data⟩)
  else if jsStartsWith line "•" then
    some (DisplayBlock.bullet line)
  else if startsNumbered (jsTrim line).data then
    some (DisplayBlock.numbered line)
  else if jsIncludes line "[View Video Tutorial]" then
    (firstBracketLabel line).map DisplayBlock.link
  else if line == "" then
    some DisplayBlock.blank
  else
    some (DisplayBlock.paragraph line)

/-- Sequential rendering of the split lines; the whole render fails if any
line fails. -/
def renderLines : List (List Char) → Option (List DisplayBlock)
  | [] => some []
  | l :: ls =>
    match renderLine ⟨l⟩, renderLines ls with
    | some b, some bs => some (b :: bs)
    | _, _ => none

/-- The narrative-text part of `renderMessage`:
`message.content.split('\n').map(...)` over the line classifier. -/
def renderMessage (content : String) : Option (List DisplayBlock) :=
  renderLines (splitOnCharL '\n' content.data)

/-- Spec-side predicate, following the spec wording only: a token beginning
with the letters `PS` (case-insensitive) followed by digits. -/
def spec_isPSToken : List Char → Bool
  | p :: s :: rest =>
    (p == 'P' || p == 'p') && (s == 'S' || s == 's') &&
      !rest.isEmpty && rest.all Char.isDigit
  | _ => false

/-- Spec-side predicate, following the spec wording only: some
space-separated token of the text is a `PS`-plus-digits part number. -/
def spec_hasPSPartNumber (s : String) : Bool :=
  (splitOnCharL ' ' s.data).any spec_isPSToken

/-- Spec-side helper: after a bracketed label ends, a parenthesized target
must follow immediately. -/
def spec_labelThenTarget : List Char → Bool
  | [] => false
  | ']' :: '(' :: rest => rest.contains ')'
  | ']' :: _ => false
  | _ :: rest => spec_labelThenTarget rest

/-- Spec-side predicate, following the spec wording only: the line contains a
bracketed label followed immediately by a parenthesized target. -/
def spec_bracketLinkLine : List Char → Bool
  | [] => false
  | '[' :: rest => spec_labelThenTarget rest || spec_bracketLinkLine rest
  | _ :: rest => spec_bracketLinkLine rest

/-- A successful prefix test yields an explicit decomposition. -/
theorem isPrefixOfL_exists (pat : List Char) :
    ∀ s, isPrefixOfL pat s = true → ∃ r, s = pat ++ r := by
  induction pat with
  | nil => intro s _; exact ⟨s, rfl⟩
  | cons a as ih =>
    intro s h
    cases s with
    | nil => simp [isPrefixOfL] at h
    | cons b bs =>
      simp only [isPrefixOfL, Bool.and_eq_true, decide_eq_true_eq] at h
      obtain ⟨rfl, h2⟩ := h
      obtain ⟨r, hr⟩ := ih bs h2
      exact ⟨r, by rw [hr]; rfl⟩

/-- A successful infix test yields an explicit decomposition. -/
theorem infixOfL_exists (pat : List Char) :
    ∀ s, infixOfL pat s = true → ∃ l r, s = l ++ (pat ++ r) := by
  intro s
  induction s with
  | nil =>
    intro h
    simp only [infixOfL, List.isEmpty_iff] at h
    exact ⟨[], [], by simp [h]⟩
  | cons c cs ih =>
    intro h
    simp only [infixOfL, Bool.or_eq_true] at h
    rcases h with h | h
    · obtain ⟨r, hr⟩ := isPrefixOfL_exists pat (c :: cs) h
      exact ⟨[], r, by simp [hr]⟩
    · obtain ⟨l, r, hr⟩ := ih h
      exact ⟨c :: l, r, by simp [hr]⟩

/-- If a closing bracket occurs in the remaining characters, the bracket
capture succeeds. -/
theorem bracketTail_isSome :
    ∀ cs : List Char, ']' ∈ cs → (bracketTail cs).isSome = true := by
  intro cs h
  induction cs with
  | nil => simp at h
  | cons c cs ih =>
    unfold bracketTail
    by_cases hc : c = ']'
    · simp [hc]
    · have hm : ']' ∈ cs := by
        rcases List.mem_cons.mp h with h1 | h1
        · exact absurd h1.symm hc
        · exact h1
      simp only [hc, if_false]
      obtain ⟨v, hv⟩ := Option.isSome_iff_exists.mp (ih hm)
      rw [hv]
      rfl

/-- If the characters decompose as anything, an opening bracket, and a tail
containing a closing bracket, the first-bracket capture succeeds. -/
theorem firstBracketLabelL_isSome :
    ∀ (l t : List Char), ']' ∈ t →
      (firstBracketLabelL (l ++ '[' :: t)).isSome = true := by
  intro l
  induction l with
  | nil =>
    intro t ht
    simp only [List.nil_append, firstBracketLabelL, if_pos rfl]
    exact bracketTail_isSome t ht
  | cons c l ih =>
    intro t ht
    by_cases hc : c = '['
    · simp only [List.cons_append, firstBracketLabelL, hc, if_pos rfl]
      exact bracketTail_isSome _ (by simp [ht])
    · simp only [List.cons_append, firstBracketLabelL, hc, if_false]
      exact ih t ht

/-- Any line containing the literal video-tutorial marker has a successful
bracket match: the marker itself supplies the opening and closing brackets. -/
theorem label_of_marker (line : String)
    (h : jsIncludes line "[View Video Tutorial]" = true) :
    (firstBracketLabel line).isSome = true := by
  unfold jsIncludes at h
  obtain ⟨l, r, hr⟩ := infixOfL_exists _ _ h
  have hdec : "[View Video Tutorial]".data = '[' :: "View Video Tutorial]".data := rfl
  rw [hdec] at hr
  have hr2 : line.data = l ++ '[' :: ("View Video Tutorial]".data ++ r) := by
    simpa using hr
  have hmem : ']' ∈ "View Video Tutorial]".data ++ r :=
    List.mem_append_left _ (by decide)
  have := firstBracketLabelL_isSome l ("View Video Tutorial]".data ++ r) hmem
  rw [← hr2] at this
  obtain ⟨v, hv⟩ := Option.isSome_iff_exists.mp this
  unfold firstBracketLabel
  rw [hv]
  rfl

/-- Every single line is classified into some block without failure. -/
theorem renderLine_isSome (line : String) : (renderLine line).isSome = true := by
  unfold renderLine
  split_ifs with h1 h2 h3 h4 h5
  · rfl
  · rfl
  · rfl
  · obtain ⟨v, hv⟩ := Option.isSome_iff_exists.mp (label_of_marker line h4)
    rw [hv]
    rfl
  · rfl
  · rfl

/-- Rendering a list of lines never fails. -/
theorem renderLines_isSome :
    ∀ ls : List (List Char), (renderLines ls).isSome = true := by
  intro ls
  induction ls with
  | nil => rfl
  | cons l ls ih =>
    unfold renderLines
    obtain ⟨b, hb⟩ := Option.isSome_iff_exists.mp (renderLine_isSome ⟨l⟩)
    obtain ⟨bs, hbs⟩ := Option.isSome_iff_exists.mp ih
    rw [hb, hbs]
    rfl

/-- Claim C1, counterexample: the query "install ps123" contains the
installation keyword and a token of the form `PS` followed by digits, yet
`processQuery` classifies it as `general` — only the configured literal
identifier `ps11752778` is recognized, not the general `PS`-digits pattern. -/
theorem installKeyword_psToken_general :
    jsIncludes (jsToLower "install ps123") "install" = true ∧
    spec_hasPSPartNumber "install ps123" = true ∧
    (processQuery "install ps123").type = QueryType.general :=
  ⟨by decide, by decide, by decide⟩

/-- Claim C1, amended: for every query whose lowercased text contains the
installation keyword "install" and the configured literal identifier
"ps11752778", the classifier returns the `installation` intent. -/
theorem processQuery_installation (q : String)
    (h1 : jsIncludes (jsToLower q) "install" = true)
    (h2 : jsIncludes (jsToLower q) "ps11752778" = true) :
    (processQuery q).type = QueryType.installation := by
  simp [processQuery, h1, h2]

/-- Claim C1, witness: a concrete installation query. -/
theorem processQuery_installation_witness :
    (processQuery "How do I install part PS11752778?").type = QueryType.installation :=
  processQuery_installation "How do I install part PS11752778?" (by decide) (by decide)

/-- Claim C2: a query satisfying both the installation rule and the
compatibility rule classifies as `installation`; the first matching rule in
source order wins. -/
theorem processQuery_rule_order (q : String)
    (h1 : jsIncludes (jsToLower q) "install" = true)
    (h2 : jsIncludes (jsToLower q) "ps11752778" = true)
    (h3 : jsIncludes (jsToLower q) "compatible" = true)
    (h4 : jsIncludes (jsToLower q) "wdt780saem1" = true) :
    (processQuery q).type = QueryType.installation := by
  simp [processQuery, h1, h2]

/-- Claim C2, witness: a concrete query matching both rules. -/
theorem processQuery_rule_order_witness :
    (processQuery "install ps11752778 compatible with wdt780saem1").type =
      QueryType.installation :=
  processQuery_rule_order "install ps11752778 compatible with wdt780saem1"
    (by decide) (by decide) (by decide) (by decide)

/-- Claim C3: any query matching none of the three rules classifies as
`general`; the empty string classifies as `general`; and a whitespace-only
submission is rejected by the controller guard before any classification or
extraction runs, leaving the state unchanged. -/
theorem processQuery_fallback (q w : String) (ms : List ChatMessage)
    (h1 : (jsIncludes (jsToLower q) "install" &&
           jsIncludes (jsToLower q) "ps11752778") = false)
    (h2 : (jsIncludes (jsToLower q) "compatible" &&
           jsIncludes (jsToLower q) "wdt780saem1") = false)
    (h3 : (jsIncludes (jsToLower q) "ice maker" &&
           jsIncludes (jsToLower q) "not working") = false)
    (hw : jsTrim w = "") :
    (processQuery q).type = QueryType.general ∧
    (processQuery "").type = QueryType.general ∧
    handleSendAgent ⟨ms, w, false⟩ = ⟨ms, w, false⟩ := by
  refine ⟨?_, by decide, ?_⟩
  · simp [processQuery, h1, h2, h3]
  · simp [handleSendAgent, hw]

/-- Claim C3, witness: a concrete no-rule query and a whitespace submission. -/
theorem processQuery_fallback_witness :
    (processQuery "hello").type = QueryType.general ∧
    (processQuery "").type = QueryType.general ∧
    handleSendAgent ⟨[], "   ", false⟩ = ⟨[], "   ", false⟩ :=
  processQuery_fallback "hello" "   " [] (by decide) (by decide) (by decide) (by decide)

/-- Claim C4: for every query, each structured attachment field of the
composed payload is populated exactly when the payload's tag is the matching
intent: `partInfo` iff `installation`, `products` iff `compatibility`, and
the `troubleshooting` and `recommendedParts` sequences iff `troubleshooting`;
in particular a `general` payload carries no structured attachments. -/
theorem processQuery_payload_invariant (q : String) :
    ((processQuery q).partInfo.isSome = true ↔
      (processQuery q).type = QueryType.installation) ∧
    ((processQuery q).products.isSome = true ↔
      (processQuery q).type = QueryType.compatibility) ∧
    ((processQuery q).troubleshooting.isSome = true ↔
      (processQuery q).type = QueryType.troubleshooting) ∧
    ((processQuery q).recommendedParts.isSome = true ↔
      (processQuery q).type = QueryType.troubleshooting) := by
  simp only [processQuery]
  split_ifs <;> simp

/-- Claim C5, counterexample: a dispatch completing with a non-success
transport status but a well-formed JSON body is handled on the success path:
the bot entry carries the body's `response` text, not the fixed error text,
because the controller never consults the status flag. -/
theorem homeSend_nonOk_success_path :
    handleSendHome ⟨[], "hello", false⟩
        (DispatchOutcome.success false ⟨some "Internal Server Error"⟩) =
      ⟨[⟨Role.user, "hello", none⟩,
        ⟨Role.bot, "Internal Server Error", some ⟨some "Internal Server Error"⟩⟩],
       "", false⟩ ∧
    "Internal Server Error" ≠ homeErrorText :=
  ⟨by decide, by decide⟩

/-- Claim C5, amended: for every dispatch that fails at the network level or
returns a body that fails JSON parsing, the transcript gains exactly the user
entry and one bot entry whose text is the fixed error text, and the
controller returns to idle (loading flag cleared); a non-success transport
status with a parseable body is instead handled on the success path. -/
theorem homeSend_failure_appends_error (s : HomeState) (o : DispatchOutcome)
    (h1 : (jsTrim s.input == "") = false) (h2 : s.isLoading = false)
    (h3 : o = DispatchOutcome.netError ∨ ∃ ok, o = DispatchOutcome.parseError ok) :
    handleSendHome s o =
      ⟨s.messages ++ [⟨Role.user, s.input, none⟩, ⟨Role.bot, homeErrorText, none⟩],
       "", false⟩ := by
  rcases h3 with rfl | ⟨ok, rfl⟩ <;> simp [handleSendHome, h1, h2]

/-- Claim C5, witness: a concrete network failure. -/
theorem homeSend_failure_appends_error_witness :
    handleSendHome ⟨[], "hi", false⟩ DispatchOutcome.netError =
      ⟨[⟨Role.user, "hi", none⟩, ⟨Role.bot, homeErrorText, none⟩], "", false⟩ :=
  homeSend_failure_appends_error ⟨[], "hi", false⟩ DispatchOutcome.netError
    (by decide) rfl (Or.inl rfl)

/-- Claim C6: a submission with empty or whitespace-only input, or a
submission arriving while a request is pending, is a no-op: the state,
including the transcript, is returned unchanged. -/
theorem handleSendAgent_noop (s : AgentState)
    (h : (jsTrim s.input == "") = true ∨ s.isLoading = true) :
    handleSendAgent s = s := by
  unfold handleSendAgent
  rcases h with h | h <;> simp [h]

/-- Claim C6, witness: a whitespace-only submission while idle. -/
theorem handleSendAgent_noop_witness :
    handleSendAgent ⟨[], "   ", false⟩ = ⟨[], "   ", false⟩ :=
  handleSendAgent_noop ⟨[], "   ", false⟩ (Or.inl (by decide))

/-- Claim C7, counterexample: the sample narrative text does not render to
exactly the three claimed blocks — the trailing newline produces a final
`blank` block as a fourth element. -/
theorem renderMessage_sample_trailing_blank :
    renderMessage "**Title**\n• item\n1. step\n" ≠
      some [DisplayBlock.heading "Title", DisplayBlock.bullet "• item",
            DisplayBlock.numbered "1. step"] := by
  decide

/-- Claim C7, amended: the sample narrative text renders to the claimed
heading, bullet and numbered blocks in source-line order, followed by one
`blank` block for the empty final line produced by the trailing newline. -/
theorem renderMessage_sample_blocks :
    renderMessage "**Title**\n• item\n1. step\n" =
      some [DisplayBlock.heading "Title", DisplayBlock.bullet "• item",
            DisplayBlock.numbered "1. step", DisplayBlock.blank] := by
  decide

/-- Claim C8, counterexample: a line consisting of a bracketed label
immediately followed by a parenthesized target renders as a `paragraph`, not
a `link` — the link branch only fires on the literal marker
"[View Video Tutorial]". -/
theorem specLinkLine_renders_paragraph :
    spec_bracketLinkLine "[Click here](https://example.com)".data = true ∧
    renderLine "[Click here](https://example.com)" =
      some (DisplayBlock.paragraph "[Click here](https://example.com)") :=
  ⟨by decide, by decide⟩

/-- Claim C8, amended: for every line that falls through the heading, bullet
and numbered rules and contains the literal marker "[View Video Tutorial]",
the renderer produces a `link` block whose display text is the content of the
first bracketed segment of the line; the parenthesized target is discarded. -/
theorem renderLine_videoTutorial_link (line : String)
    (h1 : (jsStartsWith line "**" && jsEndsWith line "**") = false)
    (h2 : jsStartsWith line "•" = false)
    (h3 : startsNumbered (jsTrim line).data = false)
    (h4 : jsIncludes line "[View Video Tutorial]" = true) :
    ∃ lab, firstBracketLabel line = some lab ∧
      renderLine line = some (DisplayBlock.link lab) := by
  obtain ⟨lab, hl⟩ := Option.isSome_iff_exists.mp (label_of_marker line h4)
  refine ⟨lab, hl, ?_⟩
  simp [renderLine, h1, h2, h3, h4, hl]

/-- Claim C8, witness: the video-tutorial line from the installation
narrative. -/
theorem renderLine_videoTutorial_link_witness :
    ∃ lab,
      firstBracketLabel "[View Video Tutorial](https://www.partselect.com/PS11752778)" =
        some lab ∧
      renderLine "[View Video Tutorial](https://www.partselect.com/PS11752778)" =
        some (DisplayBlock.link lab) :=
  renderLine_videoTutorial_link "[View Video Tutorial](https://www.partselect.com/PS11752778)"
    (by decide) (by decide) (by decide) (by decide)

/-- Claim C9: the renderer is total — rendering any content string succeeds
with one block per line — and whenever a line contains the literal marker
that selects the link branch, the bracketed-label match is guaranteed to
succeed, so the capture-group access never dereferences a missing value. -/
theorem renderer_total (content line : String)
    (h : jsIncludes line "[View Video Tutorial]" = true) :
    (renderMessage content).isSome = true ∧
    (firstBracketLabel line).isSome = true :=
  ⟨renderLines_isSome _, label_of_marker line h⟩

/-- Claim C9, witness: a concrete content string and marker line. -/
theorem renderer_total_witness :
    (renderMessage "**Title**\nhello").isSome = true ∧
    (firstBracketLabel "[View Video Tutorial](x)").isSome = true :=
  renderer_total "**Title**\nhello" "[View Video Tutorial](x)" (by decide)

/-- Claim C10: in the real-system controller, a dispatch completing with a
parsed body whose `response` field is absent or empty appends a bot entry
whose text is the fixed fallback string, with the parsed body nonetheless
attached as the entry's payload. -/
theorem homeSend_fallback_text (s : HomeState) (ok : Bool) (body : ChatData)
    (h1 : (jsTrim s.input == "") = false) (h2 : s.isLoading = false)
    (h3 : body.response = none ∨ body.response = some "") :
    handleSendHome s (DispatchOutcome.success ok body) =
      ⟨s.messages ++ [⟨Role.user, s.input, none⟩,
        ⟨Role.bot, homeFallbackText, some body⟩], "", false⟩ := by
  rcases h3 with h3 | h3 <;> simp [handleSendHome, jsOrDefault, h1, h2, h3]

/-- Claim C10, witness: a body with the `response` field absent. -/
theorem homeSend_fallback_text_witness :
    handleSendHome ⟨[], "hi", false⟩ (DispatchOutcome.success true ⟨none⟩) =
      ⟨[⟨Role.user, "hi", none⟩, ⟨Role.bot, homeFallbackText, some ⟨none⟩⟩],
       "", false⟩ :=
  homeSend_fallback_text ⟨[], "hi", false⟩ true ⟨none⟩ (by decide) rfl (Or.inl rfl)
